import Mathlib

/-!
Verification of the proxy-wasm test-framework harness (callback driver,
return-type contract and tester facade) against its natural-language
specification.  The definitions below are a shallow embedding of
src/callback.rs and src/tester.rs; the boundary enumerations that live in
the missing types.rs module, and the expectation/host-settings handles
from the missing expectations.rs and host_settings.rs modules, are
modelled from the specification and are marked as such in their doc
comments.  Machine integers (Rust i32) are modelled as Int: none of the
verified paths performs arithmetic that can overflow, the values are
only stored, passed to the guest and compared for equality.
-/

namespace TestFramework

/- ----------------------- types.rs (modelled) ----------------------- -/

/-- Modelled from the spec: types.rs is not under src.  The verdict of a
streaming callback, wire codes 0 = Continue and 1 = Pause. -/
inductive Action
  | Continue
  | Pause
deriving DecidableEq

/-- Wire code of an Action, per the spec table Continue = 0, Pause = 1.
This models the Rust cast expect_action as i32. -/
def Action.code : Action → Int
  | .Continue => 0
  | .Pause => 1

/-- Modelled from the spec: types.rs is not under src.  The expected
return of one callback invocation: nothing, a boolean, or an Action. -/
inductive ReturnType
  | None
  | Bool (b : Bool)
  | Action (a : Action)
deriving DecidableEq

/-- The Rust cast expect_bool as i32: false = 0, true = 1. -/
def boolCode (b : Bool) : Int := if b then 1 else 0

/-- Modelled from the spec: types.rs is not under src.  Peer in a
connection-close callback, wire codes Local = 0 and Remote = 1. -/
inductive PeerType
  | Local
  | Remote
deriving DecidableEq

/-- Wire code of a PeerType; models the Rust cast peer_type as i32. -/
def PeerType.code : PeerType → Int
  | .Local => 0
  | .Remote => 1

/-- Modelled from the spec: types.rs is not under src.  The detected ABI
version: tagged variant with the three cases v0.1.0, v0.2.0 and unknown.
The two supported cases are named as in the match arms of tester.rs. -/
inductive AbiVersion
  | ProxyAbiVersion0_1_0
  | ProxyAbiVersion0_2_0
  | UnknownAbiVersion
deriving DecidableEq

/- ----------------------- callback.rs: state ----------------------- -/

/-- The CallbackProto enumeration of src/callback.rs lines 63-90: one
constructor per exported callback, carrying its scalar i32 arguments.
Callbacks whose signature differs between ABI versions have a V1 and a
V2 constructor. -/
inductive CallbackProto
  | FunctionNotSet
  | Start
  | ProxyOnContextCreate (root_context_id parent_context_id : Int)
  | ProxyOnLog (context_id : Int)
  | ProxyOnDone (context_id : Int)
  | ProxyOnForeignFunction (root_context_id function_id data_size : Int)
  | ProxyOnDelete (context_id : Int)
  | ProxyOnVmStart (context_id vm_configuration_size : Int)
  | ProxyOnConfigure (context_id plugin_configuration_size : Int)
  | ProxyOnTick (context_id : Int)
  | ProxyOnQueueReady (context_id queue_id : Int)
  | ProxyOnNewConnection (context_id : Int)
  | ProxyOnDownstreamData (context_id data_size end_of_stream : Int)
  | ProxyOnDownstreamConnectionClose (context_id peer_type : Int)
  | ProxyOnUpstreamData (context_id data_size end_of_stream : Int)
  | ProxyOnUpstreamConnectionClose (context_id peer_type : Int)
  | ProxyOnRequestHeadersV1 (context_id num_headers : Int)
  | ProxyOnRequestHeadersV2 (context_id num_headers end_of_stream : Int)
  | ProxyOnRequestBody (context_id body_size end_of_stream : Int)
  | ProxyOnRequestTrailers (context_id num_trailers : Int)
  | ProxyOnResponseHeadersV1 (context_id num_headers : Int)
  | ProxyOnResponseHeadersV2 (context_id num_headers end_of_stream : Int)
  | ProxyOnResponseBody (context_id body_size end_of_stream : Int)
  | ProxyOnResponseTrailers (context_id num_trailers : Int)
  | ProxyOnHttpCallResponse
      (context_id callout_id num_headers body_size num_trailers : Int)
deriving DecidableEq

/-- The CallbackReturn enumeration of src/callback.rs lines 92-98. -/
inductive CallbackReturn
  | ReturnNotSet
  | ReturnEmpty
  | ReturnBool
  | ReturnAction
deriving DecidableEq

/-- The CallbackType pair of src/callback.rs line 42: the pending
callback prototype together with its declared return kind. -/
structure CallbackType where
  proto : CallbackProto
  rtype : CallbackReturn
deriving DecidableEq

/-- CallbackType::new (callback.rs lines 44-46). -/
def CallbackType.new : CallbackType :=
  ⟨CallbackProto.FunctionNotSet, CallbackReturn.ReturnNotSet⟩

/-- CallbackType::set (callback.rs lines 48-51): overwrites both fields. -/
def CallbackType.set (_c : CallbackType) (proto : CallbackProto)
    (rtype : CallbackReturn) : CallbackType :=
  ⟨proto, rtype⟩

/-- CallbackType::get (callback.rs lines 53-55). -/
def CallbackType.get (c : CallbackType) : CallbackProto × CallbackReturn :=
  (c.proto, c.rtype)

/-- CallbackType::reset (callback.rs lines 57-60): both fields return to
the not-set sentinels. -/
def CallbackType.reset (_c : CallbackType) : CallbackType :=
  ⟨CallbackProto.FunctionNotSet, CallbackReturn.ReturnNotSet⟩

/- ------------------- wasmtime instance (modelled) ------------------- -/

/-- Signature of an exported guest function: number of i32 parameters,
and whether it returns an i32 (the typed accessors get0..get5 of the
embedding runtime check exactly this shape). -/
structure FuncSig where
  arity : Nat
  hasRet : Bool
deriving DecidableEq

/-- An exported guest function: its signature and its behaviour.  The
behaviour either traps (with a message) or produces an i32; for a void
export the produced value is ignored by the harness. -/
structure GuestFunc where
  sig : FuncSig
  run : List Int → Except String Int

/-- The embedding-runtime instance, reduced to what the callback driver
uses: lookup of an exported function by name (Instance::get_func). -/
def WasmInstance := String → Option GuestFunc

/- ------------------ callback.rs: dispatch tables ------------------ -/

/-- The export name each CallbackProto variant dispatches to: the string
passed to get_func in the matching arm of execute_and_expect
(callback.rs lines 469-753).  FunctionNotSet reaches no get_func call
and is mapped to the empty string. -/
def exportName : CallbackProto → String
  | .FunctionNotSet => ""
  | .Start => "_start"
  | .ProxyOnContextCreate _ _ => "proxy_on_context_create"
  | .ProxyOnLog _ => "proxy_on_log"
  | .ProxyOnDone _ => "proxy_on_done"
  | .ProxyOnForeignFunction _ _ _ => "proxy_on_foreign_function"
  | .ProxyOnDelete _ => "proxy_on_delete"
  | .ProxyOnVmStart _ _ => "proxy_on_vm_start"
  | .ProxyOnConfigure _ _ => "proxy_on_configure"
  | .ProxyOnTick _ => "proxy_on_tick"
  | .ProxyOnQueueReady _ _ => "proxy_on_queue_ready"
  | .ProxyOnNewConnection _ => "proxy_on_new_connection"
  | .ProxyOnDownstreamData _ _ _ => "proxy_on_downstream_data"
  | .ProxyOnDownstreamConnectionClose _ _ => "proxy_on_downstream_connection_close"
  | .ProxyOnUpstreamData _ _ _ => "proxy_on_upstream_data"
  | .ProxyOnUpstreamConnectionClose _ _ => "proxy_on_upstream_connection_close"
  | .ProxyOnRequestHeadersV1 _ _ => "proxy_on_request_headers"
  | .ProxyOnRequestHeadersV2 _ _ _ => "proxy_on_request_headers"
  | .ProxyOnRequestBody _ _ _ => "proxy_on_request_body"
  | .ProxyOnRequestTrailers _ _ => "proxy_on_request_trailers"
  | .ProxyOnResponseHeadersV1 _ _ => "proxy_on_response_headers"
  | .ProxyOnResponseHeadersV2 _ _ _ => "proxy_on_response_headers"
  | .ProxyOnResponseBody _ _ _ => "proxy_on_response_body"
  | .ProxyOnResponseTrailers _ _ => "proxy_on_response_trailers"
  | .ProxyOnHttpCallResponse _ _ _ _ _ => "proxy_on_http_call_response"

/-- The signature demanded by the typed accessor used in each arm of
execute_and_expect: getN of i32 arguments, with or without an i32
result (for example get3 of i32, i32, i32 to i32 for the v2
request-headers arm, callback.rs line 652). -/
def expectedSig : CallbackProto → FuncSig
  | .FunctionNotSet => ⟨0, false⟩
  | .Start => ⟨0, false⟩
  | .ProxyOnContextCreate _ _ => ⟨2, false⟩
  | .ProxyOnLog _ => ⟨1, false⟩
  | .ProxyOnDone _ => ⟨1, true⟩
  | .ProxyOnForeignFunction _ _ _ => ⟨3, true⟩
  | .ProxyOnDelete _ => ⟨1, false⟩
  | .ProxyOnVmStart _ _ => ⟨2, true⟩
  | .ProxyOnConfigure _ _ => ⟨2, true⟩
  | .ProxyOnTick _ => ⟨1, false⟩
  | .ProxyOnQueueReady _ _ => ⟨2, false⟩
  | .ProxyOnNewConnection _ => ⟨1, true⟩
  | .ProxyOnDownstreamData _ _ _ => ⟨3, true⟩
  | .ProxyOnDownstreamConnectionClose _ _ => ⟨2, false⟩
  | .ProxyOnUpstreamData _ _ _ => ⟨3, true⟩
  | .ProxyOnUpstreamConnectionClose _ _ => ⟨2, false⟩
  | .ProxyOnRequestHeadersV1 _ _ => ⟨2, true⟩
  | .ProxyOnRequestHeadersV2 _ _ _ => ⟨3, true⟩
  | .ProxyOnRequestBody _ _ _ => ⟨3, true⟩
  | .ProxyOnRequestTrailers _ _ => ⟨2, true⟩
  | .ProxyOnResponseHeadersV1 _ _ => ⟨2, true⟩
  | .ProxyOnResponseHeadersV2 _ _ _ => ⟨3, true⟩
  | .ProxyOnResponseBody _ _ _ => ⟨3, true⟩
  | .ProxyOnResponseTrailers _ _ => ⟨2, true⟩
  | .ProxyOnHttpCallResponse _ _ _ _ _ => ⟨5, false⟩

/-- The scalar arguments each arm passes to the guest export, in order. -/
def callArgs : CallbackProto → List Int
  | .FunctionNotSet => []
  | .Start => []
  | .ProxyOnContextCreate a b => [a, b]
  | .ProxyOnLog a => [a]
  | .ProxyOnDone a => [a]
  | .ProxyOnForeignFunction a b c => [a, b, c]
  | .ProxyOnDelete a => [a]
  | .ProxyOnVmStart a b => [a, b]
  | .ProxyOnConfigure a b => [a, b]
  | .ProxyOnTick a => [a]
  | .ProxyOnQueueReady a b => [a, b]
  | .ProxyOnNewConnection a => [a]
  | .ProxyOnDownstreamData a b c => [a, b, c]
  | .ProxyOnDownstreamConnectionClose a b => [a, b]
  | .ProxyOnUpstreamData a b c => [a, b, c]
  | .ProxyOnUpstreamConnectionClose a b => [a, b]
  | .ProxyOnRequestHeadersV1 a b => [a, b]
  | .ProxyOnRequestHeadersV2 a b c => [a, b, c]
  | .ProxyOnRequestBody a b c => [a, b, c]
  | .ProxyOnRequestTrailers a b => [a, b]
  | .ProxyOnResponseHeadersV1 a b => [a, b]
  | .ProxyOnResponseHeadersV2 a b c => [a, b, c]
  | .ProxyOnResponseBody a b c => [a, b, c]
  | .ProxyOnResponseTrailers a b => [a, b]
  | .ProxyOnHttpCallResponse a b c d e => [a, b, c, d, e]

/-- Missing-export message in the arms that quote the name with
backticks; built in decomposed form so that the name is visibly a
substring. -/
def bqMsg (n : String) : String :=
  "failed to find `" ++ (n ++ "` function export")

/-- Missing-export message in the arms that quote the name with
single quotes. -/
def sqMsg (n : String) : String :=
  "failed to find \x27" ++ (n ++ "\x27 function export")

/-- The exact anyhow message of the ok_or in each arm of
execute_and_expect; the source alternates between backtick and
single-quote styles. -/
def missingMsg : CallbackProto → String
  | .FunctionNotSet => ""
  | .Start => bqMsg "_start"
  | .ProxyOnContextCreate _ _ => bqMsg "proxy_on_context_create"
  | .ProxyOnLog _ => bqMsg "proxy_on_log"
  | .ProxyOnDone _ => sqMsg "proxy_on_done"
  | .ProxyOnForeignFunction _ _ _ => sqMsg "proxy_on_foreign_function"
  | .ProxyOnDelete _ => sqMsg "proxy_on_delete"
  | .ProxyOnVmStart _ _ => bqMsg "proxy_on_vm_start"
  | .ProxyOnConfigure _ _ => sqMsg "proxy_on_configure"
  | .ProxyOnTick _ => bqMsg "proxy_on_tick"
  | .ProxyOnQueueReady _ _ => sqMsg "proxy_on_queue_ready"
  | .ProxyOnNewConnection _ => sqMsg "proxy_on_new_connection"
  | .ProxyOnDownstreamData _ _ _ => sqMsg "proxy_on_downstream_data"
  | .ProxyOnDownstreamConnectionClose _ _ => sqMsg "proxy_on_downstream_connection_close"
  | .ProxyOnUpstreamData _ _ _ => sqMsg "proxy_on_upstream_data"
  | .ProxyOnUpstreamConnectionClose _ _ => sqMsg "proxy_on_upstream_connection_close"
  | .ProxyOnRequestHeadersV1 _ _ => bqMsg "proxy_on_request_headers"
  | .ProxyOnRequestHeadersV2 _ _ _ => bqMsg "proxy_on_request_headers"
  | .ProxyOnRequestBody _ _ _ => sqMsg "proxy_on_request_body"
  | .ProxyOnRequestTrailers _ _ => bqMsg "proxy_on_request_trailers"
  | .ProxyOnResponseHeadersV1 _ _ => bqMsg "proxy_on_response_headers"
  | .ProxyOnResponseHeadersV2 _ _ _ => bqMsg "proxy_on_response_headers"
  | .ProxyOnResponseBody _ _ _ => sqMsg "proxy_on_response_body"
  | .ProxyOnResponseTrailers _ _ => bqMsg "proxy_on_response_trailers"
  | .ProxyOnHttpCallResponse _ _ _ _ _ => bqMsg "proxy_on_http_call_response"

/- ---------------- callback.rs: execute_and_expect ---------------- -/

/-- How one harness-level execution can fail.  The two assert macros of
the source are fatal panics; the anyhow errors propagate through the
Result; both are modelled as error values. -/
inductive ExecError
  | assertNeFailed
  | panicNoFunction
  | missingExport (msg : String)
  | badSignature (name : String)
  | guestTrap (msg : String)
  | assertKindMismatch
  | assertEqValue (expected got : Int)
  | assertReturnValuePresent
  | stageNotDrained
deriving DecidableEq

/-- Equality of Except values is decidable when it is on both sides;
used to evaluate the harness at concrete inputs. -/
instance {ε α : Type} [DecidableEq ε] [DecidableEq α] :
    DecidableEq (Except ε α) := fun a b =>
  match a, b with
  | Except.ok x, Except.ok y =>
    if h : x = y then Decidable.isTrue (congrArg Except.ok h)
    else Decidable.isFalse (fun hc => h (Except.ok.inj hc))
  | Except.error x, Except.error y =>
    if h : x = y then Decidable.isTrue (congrArg Except.error h)
    else Decidable.isFalse (fun hc => h (Except.error.inj hc))
  | Except.ok _, Except.error _ => Decidable.isFalse (fun hc => Except.noConfusion hc)
  | Except.error _, Except.ok _ => Decidable.isFalse (fun hc => Except.noConfusion hc)

/-- The body shared by every dispatch arm of execute_and_expect: look
the export up by name (ok_or the missing-export message), check the
typed signature, run the guest and capture the i32 result when the arm
declares one.  The second component lists the exports actually invoked. -/
def dispatchCore (inst : WasmInstance) (name : String) (sig : FuncSig)
    (args : List Int) (msg : String) :
    Except ExecError (Option Int) × List String :=
  match inst name with
  | none => (Except.error (ExecError.missingExport msg), [])
  | some f =>
    if f.sig = sig then
      match f.run args with
      | Except.error m => (Except.error (ExecError.guestTrap m), [name])
      | Except.ok v =>
        (Except.ok (if sig.hasRet then some v else none), [name])
    else (Except.error (ExecError.badSignature name), [])

/-- The match over the recorded CallbackProto in execute_and_expect
(callback.rs lines 469-753).  Every constructor other than
FunctionNotSet has its own arm whose body is dispatchCore at the
per-arm name, signature, arguments and message; FunctionNotSet falls
through to the final panic arm. -/
def dispatch (inst : WasmInstance) (p : CallbackProto) :
    Except ExecError (Option Int) × List String :=
  match p with
  | CallbackProto.FunctionNotSet => (Except.error ExecError.panicNoFunction, [])
  | _ => dispatchCore inst (exportName p) (expectedSig p) (callArgs p) (missingMsg p)

/-- The return-expectation match of execute_and_expect (callback.rs
lines 755-768): the declared return kind must agree with the concrete
ReturnType, and for Bool and Action the expected code is compared with
return_wasm.unwrap_or(-1). -/
def checkReturn (rt : CallbackReturn) (expect_wasm : ReturnType)
    (return_wasm : Option Int) : Except ExecError Unit :=
  match expect_wasm with
  | ReturnType.None =>
    if rt = CallbackReturn.ReturnEmpty then
      if return_wasm.isNone then Except.ok ()
      else Except.error ExecError.assertReturnValuePresent
    else Except.error ExecError.assertKindMismatch
  | ReturnType.Bool b =>
    if rt = CallbackReturn.ReturnBool then
      if boolCode b = return_wasm.getD (-1) then Except.ok ()
      else Except.error (ExecError.assertEqValue (boolCode b) (return_wasm.getD (-1)))
    else Except.error ExecError.assertKindMismatch
  | ReturnType.Action a =>
    if rt = CallbackReturn.ReturnAction then
      if Action.code a = return_wasm.getD (-1) then Except.ok ()
      else Except.error (ExecError.assertEqValue (Action.code a) (return_wasm.getD (-1)))
    else Except.error (ExecError.assertKindMismatch)

/-- The free execute_and_expect of callback.rs lines 463-772: assert a
callback and return kind are recorded, dispatch to the guest, match the
return value, then reset the recorded callback.  The result carries the
new recorded-callback state; the second component lists the exports
invoked. -/
def execute_and_expect (cb : CallbackType) (inst : WasmInstance)
    (expect_wasm : ReturnType) :
    Except ExecError CallbackType × List String :=
  if cb.proto = CallbackProto.FunctionNotSet ∨ cb.rtype = CallbackReturn.ReturnNotSet then
    (Except.error ExecError.assertNeFailed, [])
  else
    match (dispatch inst cb.proto).1 with
    | Except.error e => (Except.error e, (dispatch inst cb.proto).2)
    | Except.ok rw =>
      match checkReturn cb.rtype expect_wasm rw with
      | Except.error e => (Except.error e, (dispatch inst cb.proto).2)
      | Except.ok _ => (Except.ok (CallbackType.reset cb), (dispatch inst cb.proto).2)

/- ------------------- callback.rs: call_* traits ------------------- -/

/-!
Each trait method of callback.rs takes a mutable receiver, writes the
pending callback through set_callback (which stores into the
process-wide CALLBACK singleton, callback.rs lines 22-32) and returns
the receiver for chaining.  A method is therefore embedded as a
function from the receiver and the singleton state to the pair of the
returned receiver and the new singleton state.  The println side
effects of the source are not modelled.
-/

namespace CallbackBase

def call_start {σ : Type} (self : σ) (g : CallbackType) : σ × CallbackType :=
  (self, g.set CallbackProto.Start CallbackReturn.ReturnEmpty)

def call_proxy_on_context_create {σ : Type} (self : σ) (g : CallbackType)
    (root_context_id parent_context_id : Int) : σ × CallbackType :=
  (self, g.set (CallbackProto.ProxyOnContextCreate root_context_id parent_context_id)
    CallbackReturn.ReturnEmpty)

def call_proxy_on_done {σ : Type} (self : σ) (g : CallbackType)
    (context_id : Int) : σ × CallbackType :=
  (self, g.set (CallbackProto.ProxyOnDone context_id) CallbackReturn.ReturnBool)

def call_proxy_on_log {σ : Type} (self : σ) (g : CallbackType)
    (context_id : Int) : σ × CallbackType :=
  (self, g.set (CallbackProto.ProxyOnLog context_id) CallbackReturn.ReturnEmpty)

def call_proxy_on_delete {σ : Type} (self : σ) (g : CallbackType)
    (context_id : Int) : σ × CallbackType :=
  (self, g.set (CallbackProto.ProxyOnDelete context_id) CallbackReturn.ReturnEmpty)

def call_proxy_on_vm_start {σ : Type} (self : σ) (g : CallbackType)
    (context_id vm_configuration_size : Int) : σ × CallbackType :=
  (self, g.set (CallbackProto.ProxyOnVmStart context_id vm_configuration_size)
    CallbackReturn.ReturnBool)

def call_proxy_on_configure {σ : Type} (self : σ) (g : CallbackType)
    (context_id plugin_configuration_size : Int) : σ × CallbackType :=
  (self, g.set (CallbackProto.ProxyOnConfigure context_id plugin_configuration_size)
    CallbackReturn.ReturnBool)

def call_proxy_on_tick {σ : Type} (self : σ) (g : CallbackType)
    (context_id : Int) : σ × CallbackType :=
  (self, g.set (CallbackProto.ProxyOnTick context_id) CallbackReturn.ReturnEmpty)

def call_proxy_on_queue_ready {σ : Type} (self : σ) (g : CallbackType)
    (context_id queue_id : Int) : σ × CallbackType :=
  (self, g.set (CallbackProto.ProxyOnQueueReady context_id queue_id)
    CallbackReturn.ReturnEmpty)

def call_proxy_on_new_connection {σ : Type} (self : σ) (g : CallbackType)
    (context_id : Int) : σ × CallbackType :=
  (self, g.set (CallbackProto.ProxyOnNewConnection context_id)
    CallbackReturn.ReturnAction)

def call_proxy_on_downstream_data {σ : Type} (self : σ) (g : CallbackType)
    (context_id data_size end_of_stream : Int) : σ × CallbackType :=
  (self, g.set (CallbackProto.ProxyOnDownstreamData context_id data_size end_of_stream)
    CallbackReturn.ReturnAction)

def call_proxy_on_downstream_connection_close {σ : Type} (self : σ)
    (g : CallbackType) (context_id : Int) (peer_type : PeerType) : σ × CallbackType :=
  (self, g.set (CallbackProto.ProxyOnDownstreamConnectionClose context_id peer_type.code)
    CallbackReturn.ReturnEmpty)

def call_proxy_on_upstream_data {σ : Type} (self : σ) (g : CallbackType)
    (context_id data_size end_of_stream : Int) : σ × CallbackType :=
  (self, g.set (CallbackProto.ProxyOnUpstreamData context_id data_size end_of_stream)
    CallbackReturn.ReturnAction)

def call_proxy_on_upstream_connection_close {σ : Type} (self : σ)
    (g : CallbackType) (context_id : Int) (peer_type : PeerType) : σ × CallbackType :=
  (self, g.set (CallbackProto.ProxyOnUpstreamConnectionClose context_id peer_type.code)
    CallbackReturn.ReturnEmpty)

def call_proxy_on_request_body {σ : Type} (self : σ) (g : CallbackType)
    (context_id body_size end_of_stream : Int) : σ × CallbackType :=
  (self, g.set (CallbackProto.ProxyOnRequestBody context_id body_size end_of_stream)
    CallbackReturn.ReturnAction)

def call_proxy_on_request_trailers {σ : Type} (self : σ) (g : CallbackType)
    (context_id num_trailers : Int) : σ × CallbackType :=
  (self, g.set (CallbackProto.ProxyOnRequestTrailers context_id num_trailers)
    CallbackReturn.ReturnAction)

def call_proxy_on_response_body {σ : Type} (self : σ) (g : CallbackType)
    (context_id body_size end_of_stream : Int) : σ × CallbackType :=
  (self, g.set (CallbackProto.ProxyOnResponseBody context_id body_size end_of_stream)
    CallbackReturn.ReturnAction)

def call_proxy_on_response_trailers {σ : Type} (self : σ) (g : CallbackType)
    (context_id num_trailers : Int) : σ × CallbackType :=
  (self, g.set (CallbackProto.ProxyOnResponseTrailers context_id num_trailers)
    CallbackReturn.ReturnAction)

def call_proxy_on_http_call_response {σ : Type} (self : σ) (g : CallbackType)
    (context_id callout_id num_headers body_size num_trailers : Int) :
    σ × CallbackType :=
  (self, g.set (CallbackProto.ProxyOnHttpCallResponse context_id callout_id
      num_headers body_size num_trailers)
    CallbackReturn.ReturnEmpty)

end CallbackBase

namespace CallbackV1

def call_proxy_on_request_headers {σ : Type} (self : σ) (g : CallbackType)
    (context_id num_headers : Int) : σ × CallbackType :=
  (self, g.set (CallbackProto.ProxyOnRequestHeadersV1 context_id num_headers)
    CallbackReturn.ReturnAction)

def call_proxy_on_response_headers {σ : Type} (self : σ) (g : CallbackType)
    (context_id num_headers : Int) : σ × CallbackType :=
  (self, g.set (CallbackProto.ProxyOnResponseHeadersV1 context_id num_headers)
    CallbackReturn.ReturnAction)

end CallbackV1

namespace CallbackV2

def call_proxy_on_request_headers {σ : Type} (self : σ) (g : CallbackType)
    (context_id num_headers end_of_stream : Int) : σ × CallbackType :=
  (self, g.set (CallbackProto.ProxyOnRequestHeadersV2 context_id num_headers end_of_stream)
    CallbackReturn.ReturnAction)

/-- Embeds callback.rs lines 429-445 exactly as written: the method is
named call_proxy_on_response_headers but stores the
ProxyOnRequestHeadersV2 prototype (line 441). -/
def call_proxy_on_response_headers {σ : Type} (self : σ) (g : CallbackType)
    (context_id num_headers end_of_stream : Int) : σ × CallbackType :=
  (self, g.set (CallbackProto.ProxyOnRequestHeadersV2 context_id num_headers end_of_stream)
    CallbackReturn.ReturnAction)

def call_proxy_on_foreign_function {σ : Type} (self : σ) (g : CallbackType)
    (root_context_id function_id data_size : Int) : σ × CallbackType :=
  (self, g.set (CallbackProto.ProxyOnForeignFunction root_context_id function_id data_size)
    CallbackReturn.ReturnAction)

end CallbackV2

/- --------------- expectation / host handles (modelled) --------------- -/

/-- Modelled from the spec: expectations.rs is not under src.  A single
anticipated host-call, reduced to the consumed flag that the final
stage assertion inspects. -/
structure Expectation where
  consumed : Bool
deriving DecidableEq

/-- Modelled from the spec: expectations.rs is not under src.  The
expectation handle whose staged field the expect_* methods of tester.rs
append to; host-call handlers consume entries during guest execution. -/
structure ExpectHandle where
  staged : List Expectation
deriving DecidableEq

/-- Modelled from the spec: assert_stage requires every expectation of
the stage to be consumed. -/
def ExpectHandle.assert_stage (h : ExpectHandle) : Bool :=
  h.staged.all (fun e => e.consumed)

/-- Modelled from the spec: update_stage prepares a new empty stage for
the next test step. -/
def ExpectHandle.update_stage (_h : ExpectHandle) : ExpectHandle :=
  ⟨[]⟩

/-- Modelled from the spec: host_settings.rs is not under src.  Mock
host state, reduced to the default tick period; none of the settled
claims inspects it further. -/
structure HostHandle where
  tick_period_millis : Option Nat
deriving DecidableEq

/- ----------------------- tester.rs: Tester ----------------------- -/

/-- The Tester struct of tester.rs lines 54-60.  The callback field
exists on the struct exactly as in the source; note that the call_*
trait methods never touch it (they write the CALLBACK singleton). -/
structure Tester where
  abi_version : AbiVersion
  winst : WasmInstance
  defaults : HostHandle
  expect : ExpectHandle
  callback : CallbackType

/-- Tester::new (tester.rs lines 63-76). -/
def Tester.new (abi_version : AbiVersion) (winst : WasmInstance)
    (host_settings : HostHandle) (expect : ExpectHandle) : Tester :=
  ⟨abi_version, winst, host_settings, expect, CallbackType.new⟩

/-- A loaded module, reduced to its export table; the exported function
signatures are what ABI detection inspects. -/
structure WasmModule where
  exports : WasmInstance

/-- Modelled from the spec: hostcalls.rs (get_abi_version) is not under
src.  The ABI version is derived once at load time by inspecting the
exported signature of proxy_on_request_headers: the v1 arity (ctx, num)
gives 0.1.0, the v2 arity (ctx, num, end_of_stream) gives 0.2.0, and
any other shape is unknown. -/
def get_abi_version (m : WasmModule) : AbiVersion :=
  match m.exports "proxy_on_request_headers" with
  | some f =>
    if f.sig = ⟨2, true⟩ then AbiVersion.ProxyAbiVersion0_1_0
    else if f.sig = ⟨3, true⟩ then AbiVersion.ProxyAbiVersion0_2_0
    else AbiVersion.UnknownAbiVersion
  | none => AbiVersion.UnknownAbiVersion

/-- The test entry point of tester.rs lines 27-52: detect the ABI
version, link and instantiate, then build the Tester.  The match over
abi_version in the source (lines 41-48) has arms only for 0_1_0 and
0_2_0, each of which merely installs a trait impl; there is no arm and
no error path for an unknown version, and the Tester is constructed
unconditionally (lines 50-51). -/
def test (m : WasmModule) : Except String Tester :=
  let abi_version := get_abi_version m
  Except.ok (Tester.new abi_version m.exports ⟨none⟩ ⟨[]⟩)

/- ------------------ tester.rs: execute_and_expect ------------------ -/

/-- Observable operations of one Tester::execute_and_expect cycle, used
to state in which order the facade performs them.  promoteStage names
the staged-to-active promotion the specification describes; the
embedding of tester.rs never emits it, which is the content of the
corrected claim below. -/
inductive TesterOp
  | promoteStage
  | invokeCallback (name : String)
  | matchReturn
  | resetPending
  | assertStage
  | updateStage
deriving DecidableEq

/-- Tester::execute_and_expect (tester.rs lines 252-549): assert a
pending callback is recorded, dispatch to the guest, match the return
value, reset the pending-callback fields, assert the expectation stage
is drained, and advance the stage.  The pending callback is read from
the callback state field and the dispatch and return matching are the
ones shared with callback.rs (the FunctionCall type of tester.rs lives
in the missing types.rs; its arms coincide with CallbackProto).  The
second component records the operations in the order performed. -/
def Tester.execute_and_expect (t : Tester) (expect_wasm : ReturnType) :
    Except ExecError Tester × List TesterOp :=
  if t.callback.proto = CallbackProto.FunctionNotSet ∨
      t.callback.rtype = CallbackReturn.ReturnNotSet then
    (Except.error ExecError.assertNeFailed, [])
  else
    match (dispatch t.winst t.callback.proto).1 with
    | Except.error e =>
      (Except.error e, (dispatch t.winst t.callback.proto).2.map TesterOp.invokeCallback)
    | Except.ok rw =>
      match checkReturn t.callback.rtype expect_wasm rw with
      | Except.error e =>
        (Except.error e, (dispatch t.winst t.callback.proto).2.map TesterOp.invokeCallback
          ++ [TesterOp.matchReturn])
      | Except.ok _ =>
        if ExpectHandle.assert_stage t.expect then
          (Except.ok { t with callback := CallbackType.reset t.callback,
                              expect := ExpectHandle.update_stage t.expect },
           (dispatch t.winst t.callback.proto).2.map TesterOp.invokeCallback
             ++ [TesterOp.matchReturn, TesterOp.resetPending,
                 TesterOp.assertStage, TesterOp.updateStage])
        else
          (Except.error ExecError.stageNotDrained,
           (dispatch t.winst t.callback.proto).2.map TesterOp.invokeCallback
             ++ [TesterOp.matchReturn, TesterOp.resetPending, TesterOp.assertStage])

/- --------------- the CALLBACK singleton wiring (C3) --------------- -/

/-- Names for two coexisting Tester instances. -/
inductive TesterId
  | A
  | B
deriving DecidableEq

/-- The process state relevant to the pending-callback wiring: the
CALLBACK lazy_static singleton of callback.rs lines 22-24 together with
two Tester instances. -/
structure World where
  global : CallbackType
  a : Tester
  b : Tester

/-- set_callback (callback.rs lines 30-32): stores into the singleton. -/
def World.set_callback (w : World) (proto : CallbackProto)
    (rtype : CallbackReturn) : World :=
  { w with global := w.global.set proto rtype }

/-- Select a tester by id. -/
def World.tester (w : World) : TesterId → Tester
  | TesterId.A => w.a
  | TesterId.B => w.b

/-- Invoking call_proxy_on_log on the tester named by the id: the trait
method body only calls set_callback, so the effect lands on the
singleton whichever instance the method is invoked on. -/
def World.call_proxy_on_log (w : World) (id : TesterId) (context_id : Int) :
    World :=
  let r := CallbackBase.call_proxy_on_log (w.tester id) w.global context_id
  match id with
  | TesterId.A => { w with a := r.1, global := r.2 }
  | TesterId.B => { w with b := r.1, global := r.2 }

/-- What a subsequent execute_and_expect invoked through the given
tester will run: get_callback (callback.rs lines 34-36) reads the
singleton, regardless of the tester. -/
def World.pendingCallback (w : World) (_id : TesterId) :
    CallbackProto × CallbackReturn :=
  w.global.get

/-- Running the free execute_and_expect of callback.rs through the
given tester: the pending callback comes from the singleton, the
exports from that tester instance. -/
def World.execute_and_expect (w : World) (id : TesterId)
    (expect_wasm : ReturnType) : Except ExecError CallbackType × List String :=
  TestFramework.execute_and_expect w.global (w.tester id).winst expect_wasm

/- ------------------------ concrete fixtures ------------------------ -/

/-- An instance exporting no function at all. -/
def emptyInstance : WasmInstance := fun _ => none

/-- An instance exporting a void proxy_on_log that runs without host
calls and returns normally. -/
def instLog : WasmInstance := fun name =>
  if name = "proxy_on_log" then some ⟨⟨1, false⟩, fun _ => Except.ok 0⟩ else none

/-- An instance exporting proxy_on_done returning 1 (true). -/
def instDone : WasmInstance := fun name =>
  if name = "proxy_on_done" then some ⟨⟨1, true⟩, fun _ => Except.ok 1⟩ else none

/-- An ABI v0.2.0 guest: both header callbacks exported at the v2
arity; proxy_on_request_headers returns 0 (Continue) while
proxy_on_response_headers returns 1 (Pause), so the two exports are
observably distinct. -/
def instV2 : WasmInstance := fun name =>
  if name = "proxy_on_request_headers" then some ⟨⟨3, true⟩, fun _ => Except.ok 0⟩
  else if name = "proxy_on_response_headers" then some ⟨⟨3, true⟩, fun _ => Except.ok 1⟩
  else if name = "proxy_on_log" then some ⟨⟨1, false⟩, fun _ => Except.ok 0⟩
  else none

/-- A module whose proxy_on_request_headers export has neither the v1
nor the v2 signature, so ABI detection yields the unknown version. -/
def unknownModule : WasmModule :=
  ⟨fun name => if name = "proxy_on_request_headers"
    then some ⟨⟨4, true⟩, fun _ => Except.ok 0⟩ else none⟩

/-- A tester with a pending proxy_on_log callback, an empty stage and
the instLog exports. -/
def testerLog : Tester :=
  ⟨AbiVersion.ProxyAbiVersion0_2_0, instLog, ⟨none⟩, ⟨[]⟩,
   ⟨CallbackProto.ProxyOnLog 2, CallbackReturn.ReturnEmpty⟩⟩

/-- A fresh world: singleton unset, testers A and B fresh. -/
def world0 : World :=
  ⟨CallbackType.new,
   Tester.new AbiVersion.ProxyAbiVersion0_2_0 instV2 ⟨none⟩ ⟨[]⟩,
   Tester.new AbiVersion.ProxyAbiVersion0_2_0 instV2 ⟨none⟩ ⟨[]⟩⟩

/-- Whether an Except value is a success. -/
def execOk {ε α : Type} : Except ε α → Bool
  | Except.ok _ => true
  | Except.error _ => false

/- -------------------------- helper lemmas -------------------------- -/

/-- When the return match succeeds, the recorded kind agrees with the
concrete ReturnType and, for Bool and Action, the guest really produced
the expected code (the sentinel -1 never equals a code). -/
theorem checkReturn_ok_sound (rt : CallbackReturn) (R : ReturnType)
    (rw : Option Int) (h : checkReturn rt R rw = Except.ok ()) :
    match R with
    | ReturnType.None => rt = CallbackReturn.ReturnEmpty ∧ rw = none
    | ReturnType.Bool b => rt = CallbackReturn.ReturnBool ∧ rw = some (boolCode b)
    | ReturnType.Action a => rt = CallbackReturn.ReturnAction ∧ rw = some (Action.code a) := by
  cases R with
  | None =>
    simp only [checkReturn] at h
    split_ifs at h with h1 h2
    exact ⟨h1, Option.isNone_iff_eq_none.mp h2⟩
  | Bool b =>
    simp only [checkReturn] at h
    split_ifs at h with h1 h2
    refine ⟨h1, ?_⟩
    cases rw with
    | none => exact absurd h2 (by cases b <;> decide)
    | some v => rw [Option.getD] at h2; rw [h2]
  | Action a =>
    simp only [checkReturn] at h
    split_ifs at h with h1 h2
    refine ⟨h1, ?_⟩
    cases rw with
    | none => exact absurd h2 (by cases a <;> decide)
    | some v => rw [Option.getD] at h2; rw [h2]

/-- The dispatcher invokes either nothing or exactly the export the
recorded prototype names. -/
theorem dispatch_trace (inst : WasmInstance) (p : CallbackProto) :
    (dispatch inst p).2 = [] ∨ (dispatch inst p).2 = [exportName p] := by
  have hcore : ∀ (n : String) (s : FuncSig) (a : List Int) (m : String),
      (dispatchCore inst n s a m).2 = [] ∨ (dispatchCore inst n s a m).2 = [n] := by
    intro n s a m
    cases hi : inst n with
    | none => left; simp [dispatchCore, hi]
    | some f =>
      by_cases hs : f.sig = s
      · cases hr : f.run a with
        | error m2 => right; simp [dispatchCore, hi, hs, hr]
        | ok v => right; simp [dispatchCore, hi, hs, hr]
      · left; simp [dispatchCore, hi, hs]
  cases p <;> first
    | exact Or.inl rfl
    | exact hcore _ _ _ _

/-- The trace of one execute_and_expect is empty or the single export
named by the pending prototype. -/
theorem execute_trace (cb : CallbackType) (inst : WasmInstance) (R : ReturnType) :
    (execute_and_expect cb inst R).2 = []
    ∨ (execute_and_expect cb inst R).2 = [exportName cb.proto] := by
  by_cases hns : cb.proto = CallbackProto.FunctionNotSet
      ∨ cb.rtype = CallbackReturn.ReturnNotSet
  · left
    simp [execute_and_expect, hns]
  · have hdt := dispatch_trace inst cb.proto
    simp only [execute_and_expect, if_neg hns]
    split
    · simpa using hdt
    · split
      · simpa using hdt
      · simpa using hdt

/- --------------------------- the claims --------------------------- -/

/-- C2: execute_and_expect succeeds only if the recorded ReturnKind
matches the variant of the expected ReturnType (None with ReturnEmpty,
Bool with ReturnBool, Action with ReturnAction) and, for Bool and
Action, the i32 the guest returned equals the expected integer code
(Continue = 0, Pause = 1, false = 0, true = 1); any mismatch is an
error. -/
theorem execute_and_expect_return_contract (cb : CallbackType)
    (inst : WasmInstance) (R : ReturnType) (st : CallbackType)
    (h : (execute_and_expect cb inst R).1 = Except.ok st) :
    match R with
    | ReturnType.None => cb.rtype = CallbackReturn.ReturnEmpty
        ∧ (dispatch inst cb.proto).1 = Except.ok none
    | ReturnType.Bool b => cb.rtype = CallbackReturn.ReturnBool
        ∧ (dispatch inst cb.proto).1 = Except.ok (some (boolCode b))
    | ReturnType.Action a => cb.rtype = CallbackReturn.ReturnAction
        ∧ (dispatch inst cb.proto).1 = Except.ok (some (Action.code a)) := by
  by_cases hns : cb.proto = CallbackProto.FunctionNotSet
      ∨ cb.rtype = CallbackReturn.ReturnNotSet
  · rw [execute_and_expect, if_pos hns] at h
    exact absurd h (by simp)
  · rw [execute_and_expect, if_neg hns] at h
    cases hd : (dispatch inst cb.proto).1 with
    | error e =>
      rw [hd] at h
      dsimp only at h
      exact absurd h (by simp)
    | ok rw1 =>
      rw [hd] at h
      dsimp only at h
      cases hc : checkReturn cb.rtype R rw1 with
      | error e =>
        rw [hc] at h
        dsimp only at h
        exact absurd h (by simp)
      | ok u =>
        cases u
        have hsound := checkReturn_ok_sound cb.rtype R rw1 hc
        cases R with
        | None =>
          obtain ⟨h1, h2⟩ := hsound
          exact ⟨h1, by rw [h2]⟩
        | Bool b =>
          obtain ⟨h1, h2⟩ := hsound
          exact ⟨h1, by rw [h2]⟩
        | Action a =>
          obtain ⟨h1, h2⟩ := hsound
          exact ⟨h1, by rw [h2]⟩

/-- C2 witness: a pending proxy_on_done with ReturnBool against a guest
returning 1 succeeds with the expected Bool(true), so the contract
applies at a concrete input. -/
theorem execute_and_expect_return_contract_witness :
    (CallbackType.mk (CallbackProto.ProxyOnDone 5) CallbackReturn.ReturnBool).rtype
        = CallbackReturn.ReturnBool
    ∧ (dispatch instDone
        (CallbackType.mk (CallbackProto.ProxyOnDone 5) CallbackReturn.ReturnBool).proto).1
        = Except.ok (some (boolCode true)) :=
  execute_and_expect_return_contract
    (CallbackType.mk (CallbackProto.ProxyOnDone 5) CallbackReturn.ReturnBool)
    instDone (ReturnType.Bool true) CallbackType.new (by decide)

/-- C5: execute_and_expect with no recorded callback (FunctionNotSet or
ReturnNotSet) is a fatal error, and a successful execute_and_expect
resets the recorded callback to the not-set sentinels, so a second
execute_and_expect without an intervening call_* is fatal. -/
theorem execute_without_pending_fatal (cb : CallbackType)
    (inst : WasmInstance) (R : ReturnType) :
    ((cb.proto = CallbackProto.FunctionNotSet
        ∨ cb.rtype = CallbackReturn.ReturnNotSet) →
      (execute_and_expect cb inst R).1 = Except.error ExecError.assertNeFailed)
    ∧ (∀ st, (execute_and_expect cb inst R).1 = Except.ok st →
        st = CallbackType.new
        ∧ ∀ (inst2 : WasmInstance) (R2 : ReturnType),
          (execute_and_expect st inst2 R2).1
            = Except.error ExecError.assertNeFailed) := by
  constructor
  · intro hns
    rw [execute_and_expect, if_pos hns]
  · intro st hok
    have hst : st = CallbackType.new := by
      by_cases hns : cb.proto = CallbackProto.FunctionNotSet
          ∨ cb.rtype = CallbackReturn.ReturnNotSet
      · rw [execute_and_expect, if_pos hns] at hok
        exact absurd hok (by simp)
      · rw [execute_and_expect, if_neg hns] at hok
        cases hd : (dispatch inst cb.proto).1 with
        | error e =>
          rw [hd] at hok
          dsimp only at hok
          exact absurd hok (by simp)
        | ok rw1 =>
          rw [hd] at hok
          dsimp only at hok
          cases hc : checkReturn cb.rtype R rw1 with
          | error e =>
            rw [hc] at hok
            dsimp only at hok
            exact absurd hok (by simp)
          | ok u =>
            cases u
            rw [hc] at hok
            dsimp only at hok
            exact (Except.ok.inj hok).symm
    refine ⟨hst, fun inst2 R2 => ?_⟩
    rw [hst]
    simp [execute_and_expect, CallbackType.new]

/-- C5 witness: a fresh state is fatal at once, and after one
successful proxy_on_log cycle the immediately following
execute_and_expect is fatal. -/
theorem execute_without_pending_fatal_witness :
    (execute_and_expect CallbackType.new instLog ReturnType.None).1
        = Except.error ExecError.assertNeFailed
    ∧ (execute_and_expect CallbackType.new instDone (ReturnType.Bool true)).1
        = Except.error ExecError.assertNeFailed :=
  ⟨(execute_without_pending_fatal CallbackType.new instLog ReturnType.None).1
      (Or.inl rfl),
   ((execute_without_pending_fatal
        (CallbackType.mk (CallbackProto.ProxyOnLog 2) CallbackReturn.ReturnEmpty)
        instLog ReturnType.None).2 CallbackType.new (by decide)).2
      instDone (ReturnType.Bool true)⟩

/-- C10: when the recorded return kind is ReturnBool or ReturnAction
but the dispatched arm produced no return value, the expected code is
compared against the sentinel -1 via unwrap_or and the equality
assertion fails; no missing value is ever dereferenced. -/
theorem missing_return_value_sentinel (cb : CallbackType) (inst : WasmInstance)
    (hns : ¬(cb.proto = CallbackProto.FunctionNotSet
        ∨ cb.rtype = CallbackReturn.ReturnNotSet))
    (hd : (dispatch inst cb.proto).1 = Except.ok none) :
    (∀ b, cb.rtype = CallbackReturn.ReturnBool →
      (execute_and_expect cb inst (ReturnType.Bool b)).1
        = Except.error (ExecError.assertEqValue (boolCode b) (-1)))
    ∧ (∀ a, cb.rtype = CallbackReturn.ReturnAction →
      (execute_and_expect cb inst (ReturnType.Action a)).1
        = Except.error (ExecError.assertEqValue (Action.code a) (-1))) := by
  constructor
  · intro b hb
    have hcr : checkReturn cb.rtype (ReturnType.Bool b) none
        = Except.error (ExecError.assertEqValue (boolCode b) (-1)) := by
      rw [hb]
      cases b <;> decide
    rw [execute_and_expect, if_neg hns, hd]
    dsimp only
    rw [hcr]
  · intro a ha
    have hcr : checkReturn cb.rtype (ReturnType.Action a) none
        = Except.error (ExecError.assertEqValue (Action.code a) (-1)) := by
      rw [ha]
      cases a <;> decide
    rw [execute_and_expect, if_neg hns, hd]
    dsimp only
    rw [hcr]

/-- C10 witness: a pending proxy_on_log (a void arm) with a ReturnBool
kind fails with expected 1 versus sentinel -1. -/
theorem missing_return_value_sentinel_witness :
    (execute_and_expect
        (CallbackType.mk (CallbackProto.ProxyOnLog 2) CallbackReturn.ReturnBool)
        instLog (ReturnType.Bool true)).1
      = Except.error (ExecError.assertEqValue (boolCode true) (-1)) :=
  (missing_return_value_sentinel
      (CallbackType.mk (CallbackProto.ProxyOnLog 2) CallbackReturn.ReturnBool)
      instLog (by decide) (by decide)).1 true rfl

/-- C6: for every CallbackRequest variant, when the instance lacks the
export that variant dispatches to, execute_and_expect is a fatal
missing-export error whose message contains the export name, and
nothing is invoked (the trace is empty). -/
theorem missing_export_fatal (p : CallbackProto) (rt : CallbackReturn)
    (inst : WasmInstance) (R : ReturnType)
    (hp : p ≠ CallbackProto.FunctionNotSet)
    (hr : rt ≠ CallbackReturn.ReturnNotSet)
    (hm : inst (exportName p) = none) :
    execute_and_expect ⟨p, rt⟩ inst R
        = (Except.error (ExecError.missingExport (missingMsg p)), [])
    ∧ ∃ pre suf, missingMsg p = pre ++ (exportName p ++ suf) := by
  have hd : dispatch inst p
      = (Except.error (ExecError.missingExport (missingMsg p)), []) := by
    cases p <;> first
      | exact absurd rfl hp
      | (simp only [exportName] at hm; simp [dispatch, dispatchCore, exportName, hm])
  constructor
  · have hns : ¬((⟨p, rt⟩ : CallbackType).proto = CallbackProto.FunctionNotSet
        ∨ (⟨p, rt⟩ : CallbackType).rtype = CallbackReturn.ReturnNotSet) := by
      simp [hp, hr]
    rw [execute_and_expect, if_neg hns]
    have hd1 : (dispatch inst (⟨p, rt⟩ : CallbackType).proto).1
        = Except.error (ExecError.missingExport (missingMsg p)) := by rw [hd]
    rw [hd1]
    dsimp only
    rw [hd]
  · cases p <;> first
      | exact absurd rfl hp
      | exact ⟨"failed to find `", "` function export", rfl⟩
      | exact ⟨"failed to find \x27", "\x27 function export", rfl⟩

/-- C6 witness: a pending proxy_on_tick against an instance exporting
nothing fails with the missing-export message, which decomposes around
the export name. -/
theorem missing_export_fatal_witness :
    execute_and_expect
        ⟨CallbackProto.ProxyOnTick 1, CallbackReturn.ReturnEmpty⟩
        emptyInstance ReturnType.None
      = (Except.error (ExecError.missingExport (missingMsg (CallbackProto.ProxyOnTick 1))), [])
    ∧ ∃ pre suf, missingMsg (CallbackProto.ProxyOnTick 1)
        = pre ++ (exportName (CallbackProto.ProxyOnTick 1) ++ suf) :=
  missing_export_fatal (CallbackProto.ProxyOnTick 1) CallbackReturn.ReturnEmpty
    emptyInstance ReturnType.None (by decide) (by decide) rfl

/-- C9: recording a second callback before execute_and_expect silently
overwrites the first (CallbackType::set replaces both fields, raising
no error), execute_and_expect behaves exactly as if only the second
call_* had happened, and it invokes at most the export of the most
recently recorded callback. -/
theorem repeated_calls_last_wins (cb : CallbackType) (p1 p2 : CallbackProto)
    (r1 r2 : CallbackReturn) (inst : WasmInstance) (R : ReturnType) :
    (cb.set p1 r1).set p2 r2 = cb.set p2 r2
    ∧ execute_and_expect ((cb.set p1 r1).set p2 r2) inst R
        = execute_and_expect (cb.set p2 r2) inst R
    ∧ ((execute_and_expect ((cb.set p1 r1).set p2 r2) inst R).2 = []
        ∨ (execute_and_expect ((cb.set p1 r1).set p2 r2) inst R).2 = [exportName p2])
    ∧ (CallbackBase.call_proxy_on_log () (CallbackBase.call_proxy_on_done () cb 5).2 2).2
        = cb.set (CallbackProto.ProxyOnLog 2) CallbackReturn.ReturnEmpty :=
  ⟨rfl, rfl, execute_trace ((cb.set p1 r1).set p2 r2) inst R, rfl⟩

/-- C1: on an ABI v0.2.0 module, CallbackV2::call_proxy_on_response_headers
records the ProxyOnRequestHeadersV2 variant (callback.rs line 441), so
the following execute_and_expect invokes the export named
proxy_on_request_headers, not proxy_on_response_headers: with the
instV2 guest, whose request-headers export returns Continue and whose
response-headers export returns Pause, the cycle succeeds against
Action(Continue) and the trace shows proxy_on_request_headers. -/
theorem v2_response_headers_invokes_request_export :
    (CallbackV2.call_proxy_on_response_headers () CallbackType.new 2 0 0).2
      = CallbackType.mk (CallbackProto.ProxyOnRequestHeadersV2 2 0 0)
          CallbackReturn.ReturnAction
    ∧ exportName
        (CallbackV2.call_proxy_on_response_headers () CallbackType.new 2 0 0).2.proto
      = "proxy_on_request_headers"
    ∧ execute_and_expect
        (CallbackV2.call_proxy_on_response_headers () CallbackType.new 2 0 0).2
        instV2 (ReturnType.Action Action.Continue)
      = (Except.ok CallbackType.new, ["proxy_on_request_headers"]) :=
  ⟨rfl, rfl, by decide⟩

/-- C8 counterexample: CallbackV2::call_proxy_on_response_headers does
not record the response-headers variant carrying its arguments; it
records ProxyOnRequestHeadersV2 instead. -/
theorem call_methods_table_counterexample :
    (CallbackV2.call_proxy_on_response_headers () CallbackType.new 2 3 1).2
      ≠ CallbackType.mk (CallbackProto.ProxyOnResponseHeadersV2 2 3 1)
          CallbackReturn.ReturnAction
    ∧ (CallbackV2.call_proxy_on_response_headers () CallbackType.new 2 3 1).2
      = CallbackType.mk (CallbackProto.ProxyOnRequestHeadersV2 2 3 1)
          CallbackReturn.ReturnAction := by
  exact ⟨by decide, rfl⟩

/-- C8 (amended): every call_* method returns the facade receiver
unchanged and records its CallbackRequest variant with the declared
ReturnKind (done, vm_start and configure record ReturnBool;
context_create, log, delete, tick, queue_ready, the connection-close
callbacks and http_call_response record ReturnEmpty; new_connection,
the streaming data/body/headers/trailers callbacks and
foreign_function record ReturnAction) with the single exception of
CallbackV2::call_proxy_on_response_headers, which records the
ProxyOnRequestHeadersV2 variant (with ReturnAction). -/
theorem call_methods_record_table (σ : Type) (self : σ) (g : CallbackType)
    (x y z v w : Int) (pt : PeerType) :
    (CallbackBase.call_start self g).1 = self
    ∧ (CallbackBase.call_start self g).2
        = CallbackType.mk CallbackProto.Start CallbackReturn.ReturnEmpty
    ∧ (CallbackBase.call_proxy_on_context_create self g x y).1 = self
    ∧ (CallbackBase.call_proxy_on_context_create self g x y).2
        = CallbackType.mk (CallbackProto.ProxyOnContextCreate x y) CallbackReturn.ReturnEmpty
    ∧ (CallbackBase.call_proxy_on_done self g x).1 = self
    ∧ (CallbackBase.call_proxy_on_done self g x).2
        = CallbackType.mk (CallbackProto.ProxyOnDone x) CallbackReturn.ReturnBool
    ∧ (CallbackBase.call_proxy_on_log self g x).1 = self
    ∧ (CallbackBase.call_proxy_on_log self g x).2
        = CallbackType.mk (CallbackProto.ProxyOnLog x) CallbackReturn.ReturnEmpty
    ∧ (CallbackBase.call_proxy_on_delete self g x).1 = self
    ∧ (CallbackBase.call_proxy_on_delete self g x).2
        = CallbackType.mk (CallbackProto.ProxyOnDelete x) CallbackReturn.ReturnEmpty
    ∧ (CallbackBase.call_proxy_on_vm_start self g x y).1 = self
    ∧ (CallbackBase.call_proxy_on_vm_start self g x y).2
        = CallbackType.mk (CallbackProto.ProxyOnVmStart x y) CallbackReturn.ReturnBool
    ∧ (CallbackBase.call_proxy_on_configure self g x y).1 = self
    ∧ (CallbackBase.call_proxy_on_configure self g x y).2
        = CallbackType.mk (CallbackProto.ProxyOnConfigure x y) CallbackReturn.ReturnBool
    ∧ (CallbackBase.call_proxy_on_tick self g x).1 = self
    ∧ (CallbackBase.call_proxy_on_tick self g x).2
        = CallbackType.mk (CallbackProto.ProxyOnTick x) CallbackReturn.ReturnEmpty
    ∧ (CallbackBase.call_proxy_on_queue_ready self g x y).1 = self
    ∧ (CallbackBase.call_proxy_on_queue_ready self g x y).2
        = CallbackType.mk (CallbackProto.ProxyOnQueueReady x y) CallbackReturn.ReturnEmpty
    ∧ (CallbackBase.call_proxy_on_new_connection self g x).1 = self
    ∧ (CallbackBase.call_proxy_on_new_connection self g x).2
        = CallbackType.mk (CallbackProto.ProxyOnNewConnection x) CallbackReturn.ReturnAction
    ∧ (CallbackBase.call_proxy_on_downstream_data self g x y z).1 = self
    ∧ (CallbackBase.call_proxy_on_downstream_data self g x y z).2
        = CallbackType.mk (CallbackProto.ProxyOnDownstreamData x y z) CallbackReturn.ReturnAction
    ∧ (CallbackBase.call_proxy_on_downstream_connection_close self g x pt).1 = self
    ∧ (CallbackBase.call_proxy_on_downstream_connection_close self g x pt).2
        = CallbackType.mk (CallbackProto.ProxyOnDownstreamConnectionClose x pt.code)
            CallbackReturn.ReturnEmpty
    ∧ (CallbackBase.call_proxy_on_upstream_data self g x y z).1 = self
    ∧ (CallbackBase.call_proxy_on_upstream_data self g x y z).2
        = CallbackType.mk (CallbackProto.ProxyOnUpstreamData x y z) CallbackReturn.ReturnAction
    ∧ (CallbackBase.call_proxy_on_upstream_connection_close self g x pt).1 = self
    ∧ (CallbackBase.call_proxy_on_upstream_connection_close self g x pt).2
        = CallbackType.mk (CallbackProto.ProxyOnUpstreamConnectionClose x pt.code)
            CallbackReturn.ReturnEmpty
    ∧ (CallbackBase.call_proxy_on_request_body self g x y z).1 = self
    ∧ (CallbackBase.call_proxy_on_request_body self g x y z).2
        = CallbackType.mk (CallbackProto.ProxyOnRequestBody x y z) CallbackReturn.ReturnAction
    ∧ (CallbackBase.call_proxy_on_request_trailers self g x y).1 = self
    ∧ (CallbackBase.call_proxy_on_request_trailers self g x y).2
        = CallbackType.mk (CallbackProto.ProxyOnRequestTrailers x y) CallbackReturn.ReturnAction
    ∧ (CallbackBase.call_proxy_on_response_body self g x y z).1 = self
    ∧ (CallbackBase.call_proxy_on_response_body self g x y z).2
        = CallbackType.mk (CallbackProto.ProxyOnResponseBody x y z) CallbackReturn.ReturnAction
    ∧ (CallbackBase.call_proxy_on_response_trailers self g x y).1 = self
    ∧ (CallbackBase.call_proxy_on_response_trailers self g x y).2
        = CallbackType.mk (CallbackProto.ProxyOnResponseTrailers x y) CallbackReturn.ReturnAction
    ∧ (CallbackBase.call_proxy_on_http_call_response self g x y z v w).1 = self
    ∧ (CallbackBase.call_proxy_on_http_call_response self g x y z v w).2
        = CallbackType.mk (CallbackProto.ProxyOnHttpCallResponse x y z v w)
            CallbackReturn.ReturnEmpty
    ∧ (CallbackV1.call_proxy_on_request_headers self g x y).1 = self
    ∧ (CallbackV1.call_proxy_on_request_headers self g x y).2
        = CallbackType.mk (CallbackProto.ProxyOnRequestHeadersV1 x y) CallbackReturn.ReturnAction
    ∧ (CallbackV1.call_proxy_on_response_headers self g x y).1 = self
    ∧ (CallbackV1.call_proxy_on_response_headers self g x y).2
        = CallbackType.mk (CallbackProto.ProxyOnResponseHeadersV1 x y) CallbackReturn.ReturnAction
    ∧ (CallbackV2.call_proxy_on_request_headers self g x y z).1 = self
    ∧ (CallbackV2.call_proxy_on_request_headers self g x y z).2
        = CallbackType.mk (CallbackProto.ProxyOnRequestHeadersV2 x y z) CallbackReturn.ReturnAction
    ∧ (CallbackV2.call_proxy_on_response_headers self g x y z).1 = self
    ∧ (CallbackV2.call_proxy_on_response_headers self g x y z).2
        = CallbackType.mk (CallbackProto.ProxyOnRequestHeadersV2 x y z) CallbackReturn.ReturnAction
    ∧ (CallbackV2.call_proxy_on_foreign_function self g x y z).1 = self
    ∧ (CallbackV2.call_proxy_on_foreign_function self g x y z).2
        = CallbackType.mk (CallbackProto.ProxyOnForeignFunction x y z) CallbackReturn.ReturnAction :=
  ⟨rfl, rfl, rfl, rfl, rfl, rfl, rfl, rfl, rfl, rfl, rfl, rfl, rfl, rfl, rfl, rfl,
   rfl, rfl, rfl, rfl, rfl, rfl, rfl, rfl, rfl, rfl, rfl, rfl, rfl, rfl, rfl, rfl,
   rfl, rfl, rfl, rfl, rfl, rfl, rfl, rfl, rfl, rfl, rfl, rfl, rfl, rfl, rfl, rfl⟩

/-- C4 counterexample: a concrete successful cycle (pending
proxy_on_log, empty stage, export present) performs invoke, match,
reset, assert and advance in that order, and performs no
staged-to-active promotion at all, in particular none before the
callback is invoked. -/
theorem execute_cycle_no_promotion :
    (∃ t2, (Tester.execute_and_expect testerLog ReturnType.None).1 = Except.ok t2)
    ∧ (Tester.execute_and_expect testerLog ReturnType.None).2
      = [TesterOp.invokeCallback "proxy_on_log", TesterOp.matchReturn,
         TesterOp.resetPending, TesterOp.assertStage, TesterOp.updateStage]
    ∧ TesterOp.promoteStage ∉ (Tester.execute_and_expect testerLog ReturnType.None).2 :=
  ⟨⟨_, rfl⟩, by decide, by decide⟩

/-- C4 (amended): every successful Tester::execute_and_expect performs,
in order, the guest invocation, the return-value match, the
pending-callback reset, the drained-stage assertion and the stage
advancement; the assertion and advancement come after the return value
is matched, and no separate staged-to-active promotion step exists (the
staged expectations are consumed directly during execution). -/
theorem execute_cycle_order (t : Tester) (R : ReturnType)
    (h : execOk (Tester.execute_and_expect t R).1 = true) :
    (Tester.execute_and_expect t R).2
      = (dispatch t.winst t.callback.proto).2.map TesterOp.invokeCallback
        ++ [TesterOp.matchReturn, TesterOp.resetPending,
            TesterOp.assertStage, TesterOp.updateStage]
    ∧ TesterOp.promoteStage ∉ (Tester.execute_and_expect t R).2 := by
  by_cases hns : t.callback.proto = CallbackProto.FunctionNotSet
      ∨ t.callback.rtype = CallbackReturn.ReturnNotSet
  · rw [Tester.execute_and_expect, if_pos hns] at h
    exact absurd h (by simp [execOk])
  · rw [Tester.execute_and_expect, if_neg hns] at h ⊢
    cases hd : (dispatch t.winst t.callback.proto).1 with
    | error e =>
      rw [hd] at h
      dsimp only at h
      exact absurd h (by simp [execOk])
    | ok rw1 =>
      rw [hd] at h
      dsimp only at h ⊢
      cases hc : checkReturn t.callback.rtype R rw1 with
      | error e =>
        rw [hc] at h
        dsimp only at h
        exact absurd h (by simp [execOk])
      | ok u =>
        cases u
        rw [hc] at h
        dsimp only at h ⊢
        by_cases hstage : ExpectHandle.assert_stage t.expect = true
        · rw [if_pos hstage]
          refine ⟨rfl, ?_⟩
          simp
        · rw [if_neg hstage] at h
          exact absurd h (by simp [execOk])

/-- C4 witness: the amended cycle order applied to the concrete
successful proxy_on_log run. -/
theorem execute_cycle_order_witness :
    (Tester.execute_and_expect testerLog ReturnType.None).2
      = (dispatch testerLog.winst testerLog.callback.proto).2.map TesterOp.invokeCallback
        ++ [TesterOp.matchReturn, TesterOp.resetPending,
            TesterOp.assertStage, TesterOp.updateStage]
    ∧ TesterOp.promoteStage ∉ (Tester.execute_and_expect testerLog ReturnType.None).2 :=
  execute_cycle_order testerLog ReturnType.None (by decide)

/-- C3: the pending callback recorded by a call_* method lives in the
process-wide CALLBACK singleton, not on the Tester instance: in a
fresh world, invoking call_proxy_on_log on tester A changes the
callback a subsequent execute_and_expect through tester B runs (from
the not-set sentinels to ProxyOnLog 7), even though the B instance
itself is untouched, and B then actually invokes proxy_on_log with
the arguments A recorded. -/
theorem pending_callback_global_interference :
    World.pendingCallback world0 TesterId.B
      = (CallbackProto.FunctionNotSet, CallbackReturn.ReturnNotSet)
    ∧ World.pendingCallback (World.call_proxy_on_log world0 TesterId.A 7) TesterId.B
      = (CallbackProto.ProxyOnLog 7, CallbackReturn.ReturnEmpty)
    ∧ (World.call_proxy_on_log world0 TesterId.A 7).b = world0.b
    ∧ (World.execute_and_expect (World.call_proxy_on_log world0 TesterId.A 7)
        TesterId.B ReturnType.None).2 = ["proxy_on_log"] :=
  ⟨rfl, rfl, rfl, by decide⟩

/-- C7: on a module whose detected ABI version is unknown, tester::test
does not fail with a named error: it constructs and returns a Tester
whose abi_version is the unknown variant. -/
theorem test_unknown_abi_constructs_tester :
    get_abi_version unknownModule = AbiVersion.UnknownAbiVersion
    ∧ ∃ t, test unknownModule = Except.ok t
        ∧ t.abi_version = AbiVersion.UnknownAbiVersion :=
  ⟨by decide, _, rfl, rfl⟩

end TestFramework
